import Mathlib

/-!
# Verification of the IMFIIT fitness-chatbot core

Shallow embedding of `imfiit-backend/src/ml/fitness_chatbot.py` (data model,
nutrition/workout computations, intent classification, response dispatch and
the conversation store) together with theorems settling the specification
claims about it.

Modelling conventions:
* Python floats are modelled as exact rationals (`ℚ`); `round(x, n)` is
  Python's round-half-to-even, applied to the exact rational value.
* Python dicts keyed by strings are modelled as association lists with
  first-match lookup and in-place update (insertion order preserved,
  new keys appended) -- exactly the observable behaviour of `dict`.
* Fallible Python code (KeyError from `Enum[...]` lookups, ZeroDivisionError)
  is modelled with `Except PyError`.
* `datetime.now()` and `random.choice` are nondeterministic inputs; they are
  passed as explicit oracle parameters (`now`, `rand`) through the call chain.
* Long static response-template text is abbreviated to its leading words
  (apostrophes and interior text elided); every dynamic value interpolated
  into a template, and every machine-readable `data` payload, is kept.
-/

-- Core `Rat` arithmetic is marked `@[irreducible]`, which blocks `decide`
-- and `rfl` evaluation of the embedded computations; restore the default
-- reducibility for this file so concrete runs of the code can be checked.
attribute [local semireducible] Rat.mul Rat.add Rat.sub Rat.inv

/-- Python exception classes that the embedded code can raise. -/
inductive PyError where
  | keyError (k : String)
  | zeroDivision
  | generic (msg : String)
deriving Repr, DecidableEq

/-- The apostrophe character, used inside string data of the source. -/
def apoc : Char := Char.ofNat 39

/-- The apostrophe as a one-character string. -/
def apos : String := String.mk [apoc]

/-- Python `str.lower()` (ASCII, as used by the source). Implemented on the
character list so that it evaluates by kernel reduction. -/
def pyLower (s : String) : String := String.mk (s.toList.map Char.toLower)

/-- Python `str.upper()` (ASCII, as used by the source). -/
def pyUpper (s : String) : String := String.mk (s.toList.map Char.toUpper)

/-- Python `needle in hay` substring test on strings. -/
def strContains (hay needle : String) : Bool :=
  hay.toList.tails.any fun t => needle.toList.isPrefixOf t

/-- Python `round(x)` on an exact rational: round half to even. -/
def pyRound (x : ℚ) : ℤ :=
  if x - Int.floor x < 1/2 then Int.floor x
  else if 1/2 < x - Int.floor x then Int.floor x + 1
  else if Int.floor x % 2 = 0 then Int.floor x else Int.floor x + 1

/-- Python `round(x, 0)` (result stays a float in Python, integer-valued). -/
def round0 (x : ℚ) : ℚ := (pyRound x : ℚ)

/-- Python `round(x, 1)`. -/
def round1 (x : ℚ) : ℚ := (pyRound (x * 10) : ℚ) / 10

/-- Python `round(x, 2)`. -/
def round2 (x : ℚ) : ℚ := (pyRound (x * 100) : ℚ) / 100

/-- Lookup in an association list modelling a Python string-keyed dict. -/
def alookup {α : Type} (l : List (String × α)) (k : String) : Option α :=
  (l.find? (fun kv => kv.1 == k)).map (·.2)

/-- Update/insert in an association list modelling a Python dict:
`d[k] = v` keeps the position of an existing key and appends a new one. -/
def aset {α : Type} (l : List (String × α)) (k : String) (v : α) :
    List (String × α) :=
  if l.any (·.1 == k) then l.map (fun kv => if kv.1 == k then (k, v) else kv)
  else l ++ [(k, v)]

-- ===========================================================================
-- Data structures (`BMICategory`, `FitnessLevel`, `Goal`, `UserProfile`)
-- ===========================================================================

/-- `class BMICategory(Enum)`. -/
inductive BMICategory where
  | underweight | normal | overweight | obese_1 | obese_2 | obese_3
deriving Repr, DecidableEq

/-- The `.value` string of each `BMICategory` member. -/
def BMICategory.value : BMICategory → String
  | .underweight => "underweight"
  | .normal => "normal"
  | .overweight => "overweight"
  | .obese_1 => "obese_class_1"
  | .obese_2 => "obese_class_2"
  | .obese_3 => "obese_class_3"

/-- `class FitnessLevel(Enum)`. -/
inductive FitnessLevel where
  | beginner | intermediate | advanced | elite
deriving Repr, DecidableEq

/-- The `.value` string of each `FitnessLevel` member. -/
def FitnessLevel.value : FitnessLevel → String
  | .beginner => "beginner"
  | .intermediate => "intermediate"
  | .advanced => "advanced"
  | .elite => "elite"

/-- `class Goal(Enum)`. -/
inductive Goal where
  | weight_loss | muscle_gain | endurance | strength | general_fitness
  | flexibility
deriving Repr, DecidableEq

/-- The `.value` string of each `Goal` member. -/
def Goal.value : Goal → String
  | .weight_loss => "weight_loss"
  | .muscle_gain => "muscle_gain"
  | .endurance => "endurance"
  | .strength => "strength"
  | .general_fitness => "general_fitness"
  | .flexibility => "flexibility"

/-- `Enum[name]` lookup for `FitnessLevel` (`KeyError` modelled as `none`). -/
def fitnessLevelOfName (s : String) : Option FitnessLevel :=
  if s = "BEGINNER" then some .beginner
  else if s = "INTERMEDIATE" then some .intermediate
  else if s = "ADVANCED" then some .advanced
  else if s = "ELITE" then some .elite
  else none

/-- `Enum[name]` lookup for `Goal` (`KeyError` modelled as `none`). -/
def goalOfName (s : String) : Option Goal :=
  if s = "WEIGHT_LOSS" then some .weight_loss
  else if s = "MUSCLE_GAIN" then some .muscle_gain
  else if s = "ENDURANCE" then some .endurance
  else if s = "STRENGTH" then some .strength
  else if s = "GENERAL_FITNESS" then some .general_fitness
  else if s = "FLEXIBILITY" then some .flexibility
  else none

/-- `@dataclass class UserProfile` after `__post_init__` has run: `bmi` and
`bmi_category` are the derived fields, the three `None`-default lists have
been replaced by `[]` when absent. -/
structure UserProfile where
  user_id : String
  age : ℤ
  weight : ℚ
  height : ℚ
  gender : String
  activity_level : String
  bmi : ℚ
  bmi_category : BMICategory
  fitness_level : FitnessLevel
  goals : List Goal
  health_conditions : List String
  dietary_restrictions : List String
deriving Repr, DecidableEq

/-- `UserProfile.calculate_bmi`:
`round(self.weight / ((self.height / 100) ** 2), 2)`. -/
def calculate_bmi (weight height : ℚ) : ℚ :=
  let height_m := height / 100
  round2 (weight / (height_m ^ 2))

/-- `UserProfile.categorize_bmi`, the if/elif chain over `self.bmi`. -/
def categorize_bmi (bmi : ℚ) : BMICategory :=
  if bmi < 37/2 then .underweight
  else if 37/2 ≤ bmi ∧ bmi < 25 then .normal
  else if 25 ≤ bmi ∧ bmi < 30 then .overweight
  else if 30 ≤ bmi ∧ bmi < 35 then .obese_1
  else if 35 ≤ bmi ∧ bmi < 40 then .obese_2
  else .obese_3

/-- Constructing a `UserProfile` (dataclass call followed by
`__post_init__`): computes `bmi` and `bmi_category`; raises
`ZeroDivisionError` when `height = 0` (as `weight / (height/100)**2` does). -/
def UserProfile.make (user_id : String) (age : ℤ) (weight height : ℚ)
    (gender activity_level : String) (fitness_level : FitnessLevel)
    (goals : List Goal) (health_conditions dietary_restrictions : List String) :
    Except PyError UserProfile :=
  if height = 0 then .error .zeroDivision
  else .ok
    { user_id := user_id
      age := age
      weight := weight
      height := height
      gender := gender
      activity_level := activity_level
      bmi := calculate_bmi weight height
      bmi_category := categorize_bmi (calculate_bmi weight height)
      fitness_level := fitness_level
      goals := goals
      health_conditions := health_conditions
      dietary_restrictions := dietary_restrictions }

-- ===========================================================================
-- `IntentClassifier`
-- ===========================================================================

/-- The `patterns` dict of `IntentClassifier._rule_based_classify`, in its
exact (insertion) order. -/
def patterns : List (String × List String) :=
  [("greeting", ["hi", "hello", "hey", "good morning", "good evening"]),
   ("bmi_query", ["bmi", "body mass", "weight status", "am i overweight"]),
   ("diet_plan", ["diet", "meal plan", "what to eat", "nutrition plan",
                  "calories"]),
   ("workout_plan", ["workout", "exercise", "training", "gym",
                     "fitness routine"]),
   ("health_risk", ["risk", "disease", "diabetes", "heart", "health problem"]),
   ("progress_tracking", ["progress", "track", "measure", "improvement",
                          "results"]),
   ("motivation", ["motivate", "tired", "give up", "can" ++ apos ++ "t",
                   "help me"]),
   ("nutrition_info", ["protein", "carbs", "fats", "vitamins", "nutrients"]),
   ("goal_setting", ["goal", "target", "achieve", "want to", "aim"]),
   ("supplement_info", ["supplement", "vitamin", "whey", "creatine", "bcaa"]),
   ("injury_prevention", ["injury", "pain", "hurt", "prevent", "safe"]),
   ("recovery", ["recover", "rest", "sore", "muscle pain", "fatigue"]),
   ("sleep_advice", ["sleep", "insomnia", "rest", "tired", "bedtime"]),
   ("hydration", ["water", "drink", "hydration", "thirsty", "fluids"])]

/-- Whether any keyword of a `patterns` entry occurs in the lower-cased
text (`any(keyword in text_lower for keyword in keywords)`). -/
def entryMatches (entry : String × List String) (text_lower : String) : Bool :=
  entry.2.any fun keyword => strContains text_lower keyword

/-- `IntentClassifier._rule_based_classify`: lower-case the text, scan the
`patterns` dict in order, return the first intent any of whose keywords is a
substring, with confidence 0.8; otherwise `('general', 0.5)`. -/
def rule_based_classify (text : String) : String × ℚ :=
  let text_lower := pyLower text
  match patterns.find? (fun entry => entryMatches entry text_lower) with
  | some entry => (entry.1, 4/5)
  | none => ("general", 1/2)

/-- `class IntentClassifier` state: the `trained` flag and the trained
strategy (the TF-IDF vectorizer + random-forest pipeline of the source is
external library code; it is abstracted as a fallible prediction function,
which is exactly how `predict` consumes it). -/
structure IntentClassifier where
  trained : Bool
  model : String → Except PyError (String × ℚ)

/-- `IntentClassifier.predict`: when not trained, fall back to the
rule-based classifier; when trained, invoke the trained strategy directly
(the source wraps it in no `try`/`except`, so a failure propagates). -/
def IntentClassifier.predict (c : IntentClassifier) (text : String) :
    Except PyError (String × ℚ) :=
  if !c.trained then .ok (rule_based_classify text)
  else c.model text

-- ===========================================================================
-- `NutritionCalculator`
-- ===========================================================================

/-- `NutritionCalculator.calculate_bmr` (Mifflin-St Jeor; the `else` branch
is taken by every gender whose lower-casing is not `"male"`). -/
def calculate_bmr (profile : UserProfile) : ℚ :=
  if pyLower profile.gender = "male" then
    round0 (10 * profile.weight + 25/4 * profile.height - 5 * profile.age + 5)
  else
    round0 (10 * profile.weight + 25/4 * profile.height - 5 * profile.age - 161)

/-- `NutritionCalculator.calculate_tdee`: activity multiplier from the fixed
table, defaulting to 1.2 for an unrecognized level. -/
def calculate_tdee (profile : UserProfile) (bmr : ℚ) : ℚ :=
  let multiplier : ℚ :=
    if profile.activity_level = "sedentary" then 6/5
    else if profile.activity_level = "light" then 11/8
    else if profile.activity_level = "moderate" then 31/20
    else if profile.activity_level = "active" then 69/40
    else if profile.activity_level = "very_active" then 19/10
    else 6/5
  round0 (bmr * multiplier)

/-- The `macros` dict returned by `NutritionCalculator.calculate_macros`
(keys in insertion order: calories, protein, carbs, fats). -/
structure Macros where
  calories : ℚ
  protein : ℚ
  carbs : ℚ
  fats : ℚ
deriving Repr, DecidableEq

/-- `NutritionCalculator.calculate_macros`: goal-conditioned calories and
ratios (weight_loss checked first, then muscle_gain, else maintenance),
grams at 4 cal/g for protein and carbs and 9 cal/g for fat, all rounded. -/
def calculate_macros (profile : UserProfile) (tdee : ℚ) : Macros :=
  let sel : ℚ × ℚ × ℚ × ℚ :=
    if Goal.weight_loss ∈ profile.goals then (tdee - 500, 7/20, 1/4, 2/5)
    else if Goal.muscle_gain ∈ profile.goals then (tdee + 300, 3/10, 1/4, 9/20)
    else (tdee, 1/4, 3/10, 9/20)
  let calories := sel.1
  let protein_ratio := sel.2.1
  let fat_ratio := sel.2.2.1
  let carb_ratio := sel.2.2.2
  { calories := round0 calories
    protein := round0 ((calories * protein_ratio) / 4)
    carbs := round0 ((calories * carb_ratio) / 4)
    fats := round0 ((calories * fat_ratio) / 9) }

-- ===========================================================================
-- `WorkoutPlanner`
-- ===========================================================================

/-- One day of a generated plan (a Python dict whose key set depends on the
template; absent keys are `none`). -/
structure DaySpec where
  type : Option String := none
  name : Option String := none
  muscles : Option String := none
  duration : String
  exercises : Option (List String) := none
  sets : Option String := none
  reps : Option String := none
  rest : Option String := none
  intensity : Option String := none
  focus : Option String := none
  notes : Option String := none
deriving Repr, DecidableEq

/-- The `workout_types` list of `_generate_weight_loss_plan` (type,
exercises). -/
def weight_loss_workout_types : List (String × List String) :=
  [("HIIT Cardio", ["Burpees", "Jump squats", "Mountain climbers",
                    "High knees"]),
   ("Circuit Training", ["Push-ups", "Lunges", "Plank", "Jumping jacks"]),
   ("Steady Cardio", ["Running", "Cycling", "Swimming", "Rowing"]),
   ("Full Body Strength", ["Squats", "Deadlifts", "Bench press", "Rows"]),
   ("Core & Flexibility", ["Plank variations", "Yoga flow", "Pilates",
                           "Stretching"])]

/-- `WorkoutPlanner._generate_weight_loss_plan`. -/
def generate_weight_loss_plan (frequency duration : ℕ) :
    List (String × DaySpec) :=
  (List.range frequency).map fun i =>
    let workout := weight_loss_workout_types.getD
      (i % weight_loss_workout_types.length) ("", [])
    ("Day " ++ toString (i + 1),
     { type := some workout.1
       duration := toString duration ++ " minutes"
       exercises := some workout.2
       sets := some "3-4"
       reps := some (if strContains workout.1 "Strength" then "12-15"
                     else "Time-based")
       rest := some "30-45 seconds" })

/-- The `split` list of `_generate_muscle_gain_plan` (name, muscles,
exercises). -/
def muscle_gain_split : List (String × String × List String) :=
  [("Push Day", "Chest, Shoulders, Triceps",
    ["Bench Press", "Shoulder Press", "Dips", "Tricep Extensions"]),
   ("Pull Day", "Back, Biceps",
    ["Deadlifts", "Pull-ups", "Rows", "Bicep Curls"]),
   ("Leg Day", "Quads, Hamstrings, Glutes",
    ["Squats", "Leg Press", "Lunges", "Calf Raises"]),
   ("Upper Body", "All Upper",
    ["Bench Press", "Rows", "Shoulder Press", "Pull-ups"]),
   ("Lower Body", "All Lower",
    ["Squats", "Deadlifts", "Leg Curls", "Lunges"])]

/-- `WorkoutPlanner._generate_muscle_gain_plan`. -/
def generate_muscle_gain_plan (frequency duration : ℕ) :
    List (String × DaySpec) :=
  (List.range frequency).map fun i =>
    let workout := muscle_gain_split.getD (i % muscle_gain_split.length)
      ("", "", [])
    ("Day " ++ toString (i + 1),
     { name := some workout.1
       muscles := some workout.2.1
       duration := toString duration ++ " minutes"
       exercises := some workout.2.2
       sets := some "4-5"
       reps := some "6-12"
       rest := some "60-90 seconds"
       notes := some ("Progressive overload - increase weight when you can " ++
                      "do 12 reps easily") })

/-- The `workouts` list of `_generate_endurance_plan` (type, intensity). -/
def endurance_workouts : List (String × String) :=
  [("Long Slow Distance", "Zone 2 (60-70% max HR)"),
   ("Tempo Run", "Zone 3-4 (70-85% max HR)"),
   ("Interval Training", "Zone 4-5 (85-95% max HR)"),
   ("Recovery Run", "Zone 1-2 (50-65% max HR)"),
   ("Cross Training", "Moderate")]

/-- `WorkoutPlanner._generate_endurance_plan`. -/
def generate_endurance_plan (frequency duration : ℕ) :
    List (String × DaySpec) :=
  (List.range frequency).map fun i =>
    let workout := endurance_workouts.getD (i % endurance_workouts.length)
      ("", "")
    ("Day " ++ toString (i + 1),
     { type := some workout.1
       duration := toString duration ++ " minutes"
       intensity := some workout.2
       notes := some "Monitor heart rate and stay in target zone" })

/-- The `workouts` list of `_generate_general_fitness_plan` (type, focus). -/
def general_fitness_workouts : List (String × String) :=
  [("Full Body Strength", "Compound movements"),
   ("Cardio", "Moderate intensity steady state"),
   ("Functional Training", "Movement patterns"),
   ("HIIT", "High intensity intervals"),
   ("Flexibility & Recovery", "Stretching and mobility")]

/-- `WorkoutPlanner._generate_general_fitness_plan`. -/
def generate_general_fitness_plan (frequency duration : ℕ) :
    List (String × DaySpec) :=
  (List.range frequency).map fun i =>
    let workout := general_fitness_workouts.getD
      (i % general_fitness_workouts.length) ("", "")
    ("Day " ++ toString (i + 1),
     { type := some workout.1
       focus := some workout.2
       duration := toString duration ++ " minutes" })

/-- The `plan` dict returned by `WorkoutPlanner.generate_weekly_plan`. -/
structure WeeklyPlan where
  week_overview : String
  days : List (String × DaySpec)
  progression_tips : List String
  recovery_advice : List String
deriving Repr, DecidableEq

/-- `WorkoutPlanner.generate_weekly_plan`: frequency/intensity/duration by
fitness level (the `else` branch covers advanced and elite), then the day
schedule by goal priority (weight_loss, muscle_gain, endurance, general). -/
def generate_weekly_plan (profile : UserProfile) : WeeklyPlan :=
  let sel : ℕ × String × ℕ :=
    if profile.fitness_level = .beginner then (3, "low-moderate", 30)
    else if profile.fitness_level = .intermediate then (4, "moderate-high", 45)
    else (5, "high", 60)
  let frequency := sel.1
  let intensity := sel.2.1
  let duration := sel.2.2
  let head := toString frequency ++ " days/week, " ++ intensity ++
    " intensity, "
  let ov_days : String × List (String × DaySpec) :=
    if Goal.weight_loss ∈ profile.goals then
      (head ++ "focus on cardio and circuit training",
       generate_weight_loss_plan frequency duration)
    else if Goal.muscle_gain ∈ profile.goals then
      (head ++ "focus on progressive overload",
       generate_muscle_gain_plan frequency duration)
    else if Goal.endurance ∈ profile.goals then
      (head ++ "focus on cardiovascular endurance",
       generate_endurance_plan frequency duration)
    else
      (head ++ "balanced fitness approach",
       generate_general_fitness_plan frequency duration)
  { week_overview := ov_days.1
    days := ov_days.2
    progression_tips :=
      ["Increase intensity by 5-10% each week",
       "Focus on proper form over weight/speed",
       "Track your workouts for progressive overload",
       "Listen to your body and rest when needed"]
    recovery_advice :=
      ["Get 7-9 hours of sleep per night",
       "Stay hydrated (aim for 3-4L water daily)",
       "Include protein within 30 minutes post-workout",
       "Consider active recovery on rest days"] }

-- ===========================================================================
-- `FitnessChatbot` knowledge tables and helper methods
-- ===========================================================================

/-- One entry of the health-risks table: `{risks, recommendations}`. -/
structure HealthInfo where
  risks : List String
  recommendations : List String
deriving Repr, DecidableEq

/-- `FitnessChatbot._load_health_risks`: the table has no entry for
`NORMAL`, so that category yields `none` (and empty lists downstream via
`.get`). -/
def health_risks_db : BMICategory → Option HealthInfo
  | .underweight => some
      ⟨["Malnutrition", "Osteoporosis", "Weakened immune system",
        "Fertility issues"],
       ["Increase caloric intake", "Focus on nutrient-dense foods",
        "Strength training", "Regular health checkups"]⟩
  | .normal => none
  | .overweight => some
      ⟨["Type 2 diabetes", "High blood pressure", "Heart disease",
        "Sleep apnea"],
       ["Create caloric deficit", "Regular cardio exercise", "Balanced diet",
        "Monitor blood sugar"]⟩
  | .obese_1 => some
      ⟨["Type 2 diabetes", "Cardiovascular disease", "Joint problems",
        "Metabolic syndrome"],
       ["Medical consultation", "Structured weight loss program",
        "Low-impact exercise", "Dietary counseling"]⟩
  | .obese_2 => some
      ⟨["Severe cardiovascular risk", "Type 2 diabetes", "Sleep disorders",
        "Joint degeneration"],
       ["Medical supervision required", "Gradual weight loss",
        "Water-based exercises", "Psychological support"]⟩
  | .obese_3 => some
      ⟨["Life-threatening conditions", "Severe diabetes risk",
        "Cardiovascular failure", "Mobility issues"],
       ["Immediate medical attention", "Bariatric consultation",
        "Supervised exercise", "Comprehensive health plan"]⟩

/-- `FitnessChatbot._interpret_bmi`. -/
def interpret_bmi (category : BMICategory) : String :=
  match category with
  | .underweight => "You" ++ apos ++ "re underweight. Focus on healthy " ++
      "weight gain through balanced nutrition and strength training."
  | .normal => "You" ++ apos ++ "re in a healthy weight range. Maintain " ++
      "this through balanced diet and regular exercise."
  | .overweight => "You" ++ apos ++ "re slightly overweight. A modest " ++
      "caloric deficit and increased activity can help."
  | .obese_1 => "You" ++ apos ++ "re in the obese range. Significant " ++
      "lifestyle changes are recommended for health improvement."
  | .obese_2 => "You" ++ apos ++ "re severely obese. Medical supervision " ++
      "is strongly recommended for safe weight loss."
  | .obese_3 => "You" ++ apos ++ "re morbidly obese. Immediate medical " ++
      "intervention is necessary for health preservation."

/-- The dict returned by `_calculate_ideal_weight_range`. -/
structure IdealRange where
  min_kg : ℚ
  max_kg : ℚ
deriving Repr, DecidableEq

/-- `FitnessChatbot._calculate_ideal_weight_range`. -/
def calculate_ideal_weight_range (height_cm : ℚ) : IdealRange :=
  let height_m := height_cm / 100
  { min_kg := round1 (37/2 * height_m ^ 2)
    max_kg := round1 (249/10 * height_m ^ 2) }

/-- `FitnessChatbot._get_priority_actions` (conditional pushes followed by
`actions[:5]`). -/
def get_priority_actions (profile : UserProfile) : List String :=
  let actions :=
    (if profile.bmi_category = .obese_2 ∨ profile.bmi_category = .obese_3 then
      ["Consult with a healthcare provider immediately"] else []) ++
    (if profile.bmi_category = .underweight then
      ["Increase caloric intake by 300-500 calories daily"]
     else if profile.bmi_category = .overweight ∨
          profile.bmi_category = .obese_1 then
      ["Create a 500 calorie daily deficit for safe weight loss"] else []) ++
    (if profile.activity_level = "sedentary" ∨
        profile.activity_level = "light" then
      ["Increase daily activity to at least 30 minutes"] else []) ++
    ["Start tracking food intake and exercise",
     "Establish consistent sleep schedule (7-9 hours)",
     "Increase water intake to 2-3 liters daily"]
  actions.take 5

/-- `FitnessChatbot._generate_meal_timing` (the three goal-keyed variants). -/
def generate_meal_timing (profile : UserProfile) : List (String × String) :=
  if Goal.weight_loss ∈ profile.goals then
    [("breakfast", "7:00-8:00 AM"), ("snack_1", "10:00 AM (optional)"),
     ("lunch", "12:30-1:30 PM"), ("snack_2", "3:30 PM (protein-based)"),
     ("dinner", "6:30-7:30 PM"), ("notes", "Avoid eating 3 hours before bed")]
  else if Goal.muscle_gain ∈ profile.goals then
    [("breakfast", "7:00 AM"), ("snack_1", "10:00 AM"), ("lunch", "1:00 PM"),
     ("pre_workout", "3:30 PM"),
     ("post_workout", "Within 30 min after training"), ("dinner", "7:00 PM"),
     ("before_bed", "9:30 PM (casein protein)"),
     ("notes", "Frequent protein intake for muscle synthesis")]
  else
    [("breakfast", "7:00-9:00 AM"), ("lunch", "12:00-1:30 PM"),
     ("snack", "3:00-4:00 PM (optional)"), ("dinner", "6:30-8:00 PM"),
     ("notes", "Maintain consistent meal times")]

/-- The suggestions dict built by `_get_food_suggestions`. -/
structure FoodSuggestions where
  proteins : List String
  carbs : List String
  fats : List String
  vegetables : List String
  fruits : List String
deriving Repr, DecidableEq

/-- `FitnessChatbot._get_food_suggestions` (vegetarian/vegan substitution of
the protein list, default omnivore otherwise). -/
def get_food_suggestions (profile : UserProfile) : FoodSuggestions :=
  { proteins :=
      if "vegetarian" ∈ profile.dietary_restrictions then
        ["Tofu", "Legumes", "Quinoa", "Greek yogurt", "Eggs"]
      else if "vegan" ∈ profile.dietary_restrictions then
        ["Tofu", "Legumes", "Quinoa", "Tempeh", "Seitan"]
      else
        ["Chicken breast", "Fish", "Lean beef", "Eggs", "Greek yogurt"]
    carbs := ["Brown rice", "Oats", "Sweet potato", "Quinoa",
              "Whole grain bread"]
    fats := ["Avocado", "Nuts", "Olive oil", "Seeds", "Fatty fish"]
    vegetables := ["Broccoli", "Spinach", "Bell peppers", "Cauliflower",
                   "Zucchini"]
    fruits := ["Berries", "Apples", "Oranges", "Bananas", "Kiwi"] }

/-- `FitnessChatbot._generate_timeline` (static). -/
def generate_timeline (_profile : UserProfile) : List (String × String) :=
  [("week_1_2", "Adaptation phase - Focus on building habits"),
   ("week_3_4",
    "Initial changes - Energy levels improve, slight weight change"),
   ("month_2", "Visible progress - 2-4 kg weight change, strength gains"),
   ("month_3",
    "Significant results - 4-8 kg total change, body composition improvements"),
   ("month_6",
    "Transformation - Major health improvements, sustainable lifestyle established")]

/-- The `motivational_quotes` list of `_handle_motivation`. -/
def motivational_quotes : List String :=
  ["Every workout counts, no matter how small!",
   "You" ++ apos ++ "re not just building a better body, you" ++ apos ++
     "re building a better life.",
   "Progress is progress, no matter how slow.",
   "The only bad workout is the one that didn" ++ apos ++ "t happen.",
   "Your future self will thank you for starting today."]

-- ===========================================================================
-- Response values (JSON-shaped payloads) and the response builders
-- ===========================================================================

/-- JSON-like values for the `data` payloads of the response dicts. -/
inductive Val where
  | s (v : String)
  | q (v : ℚ)
  | i (v : ℤ)
  | arr (vs : List Val)
  | dict (kvs : List (String × Val))

/-- A list of strings as a `Val`. -/
def Val.strs (l : List String) : Val := .arr (l.map .s)

/-- A string-to-string dict as a `Val`. -/
def Val.smap (l : List (String × String)) : Val :=
  .dict (l.map fun kv => (kv.1, .s kv.2))

/-- The `data` encoding of an `IdealRange`. -/
def IdealRange.toVal (r : IdealRange) : Val :=
  .dict [("min_kg", .q r.min_kg), ("max_kg", .q r.max_kg)]

/-- The `data` encoding of a `Macros` dict. -/
def Macros.toVal (m : Macros) : Val :=
  .dict [("calories", .q m.calories), ("protein", .q m.protein),
         ("carbs", .q m.carbs), ("fats", .q m.fats)]

/-- The `data` encoding of a `FoodSuggestions` dict. -/
def FoodSuggestions.toVal (f : FoodSuggestions) : Val :=
  .dict [("proteins", .strs f.proteins), ("carbs", .strs f.carbs),
         ("fats", .strs f.fats), ("vegetables", .strs f.vegetables),
         ("fruits", .strs f.fruits)]

/-- The `data` encoding of a `DaySpec` (present keys only). -/
def DaySpec.toVal (d : DaySpec) : Val :=
  .dict ((d.type.map fun v => ("type", Val.s v)).toList ++
         (d.name.map fun v => ("name", Val.s v)).toList ++
         (d.muscles.map fun v => ("muscles", Val.s v)).toList ++
         [("duration", Val.s d.duration)] ++
         (d.exercises.map fun v => ("exercises", Val.strs v)).toList ++
         (d.sets.map fun v => ("sets", Val.s v)).toList ++
         (d.reps.map fun v => ("reps", Val.s v)).toList ++
         (d.rest.map fun v => ("rest", Val.s v)).toList ++
         (d.intensity.map fun v => ("intensity", Val.s v)).toList ++
         (d.focus.map fun v => ("focus", Val.s v)).toList ++
         (d.notes.map fun v => ("notes", Val.s v)).toList)

/-- The `data` encoding of a `WeeklyPlan`. -/
def WeeklyPlan.toVal (p : WeeklyPlan) : Val :=
  .dict [("week_overview", .s p.week_overview),
         ("days", .dict (p.days.map fun kv => (kv.1, kv.2.toVal))),
         ("progression_tips", .strs p.progression_tips),
         ("recovery_advice", .strs p.recovery_advice)]

/-- The dict a response builder (or `process_message` itself) returns.
Fields model the dict keys that occur in the source; `none` means the key
is absent from the dict. -/
structure Response where
  response : String
  suggestions : Option (List String) := none
  data : Option Val := none
  requires_profile : Option Bool := none
  timestamp : Option String := none

/-- `FitnessChatbot._handle_greeting`. -/
def handle_greeting (profile : UserProfile) (_message : String) (_rand : ℕ) :
    Response :=
  let bmr := calculate_bmr profile
  { response := "Hello! I" ++ apos ++ "m your AI fitness coach. Based on " ++
      "your profile, your BMI is " ++ toString profile.bmi ++ " (" ++
      profile.bmi_category.value ++ "). How can I help you today? I can " ++
      "provide diet plans, workout routines, health advice, and track " ++
      "your progress."
    suggestions := some
      ["Show me my diet plan", "Create a workout routine",
       "What are my health risks?", "How can I lose weight?"]
    data := some (.dict [("bmi", .q profile.bmi),
                         ("category", .s profile.bmi_category.value),
                         ("bmr", .q bmr)]) }

/-- `FitnessChatbot._handle_bmi_query` (static template text abbreviated;
the interpolated values are kept). -/
def handle_bmi_query (profile : UserProfile) (_message : String) (_rand : ℕ) :
    Response :=
  let ideal_range := calculate_ideal_weight_range profile.height
  let health_info := health_risks_db profile.bmi_category
  { response := "Your BMI Analysis: Current BMI: " ++ toString profile.bmi ++
      " Category: " ++ profile.bmi_category.value ++ " Current Weight: " ++
      toString profile.weight ++ " kg Height: " ++ toString profile.height ++
      " cm Ideal Weight Range: " ++ toString ideal_range.min_kg ++ "-" ++
      toString ideal_range.max_kg ++ " kg " ++
      interpret_bmi profile.bmi_category
    data := some (.dict
      [("bmi", .q profile.bmi),
       ("category", .s profile.bmi_category.value),
       ("ideal_range", ideal_range.toVal),
       ("risks", .strs ((health_info.map (·.risks)).getD [])),
       ("recommendations",
        .strs ((health_info.map (·.recommendations)).getD []))]) }

/-- `FitnessChatbot._handle_diet_plan` (static template text abbreviated;
the interpolated values, including the 0.033 L/kg hydration figure, are
kept). -/
def handle_diet_plan (profile : UserProfile) (_message : String) (_rand : ℕ) :
    Response :=
  let bmr := calculate_bmr profile
  let tdee := calculate_tdee profile bmr
  let macros := calculate_macros profile tdee
  let meal_timing := generate_meal_timing profile
  let foods := get_food_suggestions profile
  { response := "Your Personalized Nutrition Plan: BMR: " ++ toString bmr ++
      " calories TDEE: " ++ toString tdee ++ " calories Target Intake: " ++
      toString macros.calories ++ " calories Protein: " ++
      toString macros.protein ++ "g Carbohydrates: " ++
      toString macros.carbs ++ "g Fats: " ++ toString macros.fats ++
      "g Hydration: Aim for " ++ toString (round1 (profile.weight * 33/1000)) ++
      "L of water daily"
    data := some (.dict
      [("bmr", .q bmr), ("tdee", .q tdee), ("macros", macros.toVal),
       ("meal_timing", .smap meal_timing),
       ("food_suggestions", foods.toVal)]) }

/-- `FitnessChatbot._handle_workout_plan` (static template text
abbreviated). -/
def handle_workout_plan (profile : UserProfile) (_message : String)
    (_rand : ℕ) : Response :=
  let plan := generate_weekly_plan profile
  { response := "Your Personalized Workout Plan: Overview: " ++
      plan.week_overview
    data := some plan.toVal }

/-- `FitnessChatbot._handle_health_risk` (static template text abbreviated;
the BMI-category-dependent medical-advice tail is kept). -/
def handle_health_risk (profile : UserProfile) (_message : String)
    (_rand : ℕ) : Response :=
  let health_info := health_risks_db profile.bmi_category
  let priority_actions := get_priority_actions profile
  { response := "Health Risk Assessment for BMI " ++ toString profile.bmi ++
      ": " ++
      (if profile.bmi_category = .obese_2 ∨ profile.bmi_category = .obese_3
       then "IMPORTANT: Please consult with a healthcare provider before " ++
            "starting any exercise program. Medical supervision is " ++
            "strongly recommended for your BMI category."
       else if profile.bmi_category = .obese_1 then
         "Consider consulting with a healthcare provider for a " ++
         "comprehensive health assessment and personalized guidance."
       else
         "Regular health check-ups are recommended to monitor your " ++
         "progress and overall health status.")
    data := some (.dict
      [("risks", .strs ((health_info.map (·.risks)).getD [])),
       ("recommendations",
        .strs ((health_info.map (·.recommendations)).getD [])),
       ("priority_actions", .strs priority_actions)]) }

/-- `FitnessChatbot._handle_progress_tracking` (static template text
abbreviated). -/
def handle_progress_tracking (profile : UserProfile) (_message : String)
    (_rand : ℕ) : Response :=
  { response := "Progress Tracking Guidelines: What to Track: Weight, " ++
      "Body Measurements, Photos, Performance, Energy Levels, Sleep Quality"
    data := some (.dict
      [("metrics", .strs ["weight", "measurements", "photos", "performance",
                          "energy", "sleep"]),
       ("timeline", .smap (generate_timeline profile))]) }

/-- `FitnessChatbot._handle_motivation`: `random.choice` is modelled by the
`rand` oracle index into the fixed quote list. -/
def handle_motivation (profile : UserProfile) (_message : String) (rand : ℕ) :
    Response :=
  let quote := motivational_quotes.getD (rand % motivational_quotes.length) ""
  { response := "Motivation Boost: " ++ quote ++
      " You are already " ++ profile.fitness_level.value ++
      " level - that is progress! Your BMI of " ++ toString profile.bmi ++
      " is just a number - what matters is the direction you are heading."
    data := some (.dict
      [("quote", .s quote),
       ("goals", .strs (profile.goals.map Goal.value))]) }

/-- `FitnessChatbot._handle_nutrition_info` (static template text
abbreviated). -/
def handle_nutrition_info (_profile : UserProfile) (_message : String)
    (_rand : ℕ) : Response :=
  { response := "Nutrition Fundamentals: Proteins (4 cal/g), " ++
      "Carbohydrates (4 cal/g), Fats (9 cal/g)"
    data := some (.dict
      [("macros_info", .dict
        [("protein_per_kg", .q (9/5)), ("fat_percentage", .i 25),
         ("carb_percentage", .i 45)])]) }

/-- `FitnessChatbot._handle_goal_setting` (static template text
abbreviated). -/
def handle_goal_setting (profile : UserProfile) (_message : String)
    (_rand : ℕ) : Response :=
  let current_goals := profile.goals.map Goal.value
  { response := "Goal Setting Strategy: Based on your BMI (" ++
      toString profile.bmi ++ "), here are realistic targets."
    data := some (.dict
      [("current_goals", .strs current_goals),
       ("suggested_targets", .smap
        [("short_term", "2-4 kg in 4 weeks"),
         ("medium_term", "6-12 kg in 12 weeks"),
         ("long_term", "Complete transformation in 6 months")])]) }

/-- `FitnessChatbot._handle_supplement_info` (static template text
abbreviated; `profile.goals[0].value if profile.goals else 'general'` is
kept). -/
def handle_supplement_info (profile : UserProfile) (_message : String)
    (_rand : ℕ) : Response :=
  { response := "Supplement Guide: Basic Supplements, Performance " ++
      "Supplements, Goal-Specific"
    data := some (.dict
      [("basic", .strs ["Multivitamin", "Vitamin D3", "Omega-3"]),
       ("performance", .strs ["Whey Protein", "Creatine", "Caffeine"]),
       ("goal_specific", .s (match profile.goals with
         | [] => "general"
         | g :: _ => g.value))]) }

/-- `FitnessChatbot._handle_injury_prevention` (static template text
abbreviated). -/
def handle_injury_prevention (_profile : UserProfile) (_message : String)
    (_rand : ℕ) : Response :=
  { response := "Injury Prevention Guidelines: warm-up, form, cool-down, " ++
      "recovery"
    data := some (.dict
      [("warm_up_time", .s "5-10 minutes"),
       ("cool_down_time", .s "5-10 minutes"),
       ("rest_days_per_week", .s "1-2")]) }

/-- `FitnessChatbot._handle_recovery` (static template text abbreviated). -/
def handle_recovery (_profile : UserProfile) (_message : String) (_rand : ℕ) :
    Response :=
  { response := "Recovery Optimization: sleep, nutrition, active recovery, " ++
      "recovery tools"
    data := some (.dict
      [("sleep_hours", .s "7-9"),
       ("protein_per_kg", .s "1.6-2.2g"),
       ("hydration_per_kg", .s "35-40ml")]) }

/-- `FitnessChatbot._handle_sleep_advice` (static template text
abbreviated). -/
def handle_sleep_advice (_profile : UserProfile) (_message : String)
    (_rand : ℕ) : Response :=
  { response := "Sleep Optimization for Fitness: duration, consistency, " ++
      "sleep hygiene"
    data := some (.dict
      [("optimal_hours", .s "7-9"),
       ("room_temp", .s "18-20°C"),
       ("meal_cutoff", .s "3 hours before bed")]) }

/-- `FitnessChatbot._handle_hydration` (static template text abbreviated;
the 0.035 L/kg and 0.005 L/kg computed figures are kept). -/
def handle_hydration (profile : UserProfile) (_message : String) (_rand : ℕ) :
    Response :=
  let daily_water := round1 (profile.weight * 7/200)
  let exercise_water := round1 (profile.weight * 1/200)
  { response := "Hydration Guidelines: Baseline: " ++ toString daily_water ++
      "L per day Exercise days: +" ++ toString exercise_water ++
      "L per hour Total: " ++ toString (daily_water + exercise_water) ++
      "L on training days"
    data := some (.dict
      [("daily_intake", .s (toString daily_water ++ "L")),
       ("exercise_addition", .s (toString exercise_water ++ "L per hour")),
       ("total_training_day",
        .s (toString (daily_water + exercise_water) ++ "L"))]) }

/-- `FitnessChatbot._handle_general` (static template text abbreviated). -/
def handle_general (profile : UserProfile) (_message : String) (_rand : ℕ) :
    Response :=
  { response := "I can help you with various fitness topics. Your Current " ++
      "Status: BMI: " ++ toString profile.bmi ++ " (" ++
      profile.bmi_category.value ++ ") Fitness Level: " ++
      profile.fitness_level.value ++ " Activity: " ++ profile.activity_level
    data := some (.dict
      [("services", .strs
        ["Diet Planning", "Workout Routines", "Health Assessment",
         "Progress Tracking", "Supplements", "Injury Prevention",
         "Recovery", "Sleep", "Hydration"]),
       ("user_status", .dict
        [("bmi", .q profile.bmi),
         ("fitness_level", .s profile.fitness_level.value),
         ("goals", .strs (profile.goals.map Goal.value))])]) }

/-- `FitnessChatbot._generate_intent_response`: the dispatch dict of
response builders, `responses.get(intent, self._handle_general)`. -/
def generate_intent_response (profile : UserProfile) (intent message : String)
    (rand : ℕ) : Response :=
  let handler :=
    if intent = "greeting" then handle_greeting
    else if intent = "bmi_query" then handle_bmi_query
    else if intent = "diet_plan" then handle_diet_plan
    else if intent = "workout_plan" then handle_workout_plan
    else if intent = "health_risk" then handle_health_risk
    else if intent = "progress_tracking" then handle_progress_tracking
    else if intent = "motivation" then handle_motivation
    else if intent = "nutrition_info" then handle_nutrition_info
    else if intent = "goal_setting" then handle_goal_setting
    else if intent = "supplement_info" then handle_supplement_info
    else if intent = "injury_prevention" then handle_injury_prevention
    else if intent = "recovery" then handle_recovery
    else if intent = "sleep_advice" then handle_sleep_advice
    else if intent = "hydration" then handle_hydration
    else handle_general
  handler profile message rand

-- ===========================================================================
-- `FitnessChatbot`: conversation store and entry points
-- ===========================================================================

/-- One entry of `conversation_history[user_id]` (the dict appended by
`process_message`). -/
structure HistoryEntry where
  timestamp : String
  message : String
  intent : String
  response : String
deriving Repr, DecidableEq

/-- The raw `user_data` dict accepted by `create_user_profile`: required
keys are plain fields, `dict.get`-accessed keys are `Option` (absent =
`none`). -/
structure RawUserData where
  user_id : String
  age : ℤ
  weight : ℚ
  height : ℚ
  gender : String
  activity_level : Option String := none
  fitness_level : Option String := none
  goals : Option (List String) := none
  health_conditions : Option (List String) := none
  dietary_restrictions : Option (List String) := none

/-- The `[Goal[g.upper()] for g in ...]` comprehension: first unmapped name
raises `KeyError`. -/
def goalsOfNames : List String → Except PyError (List Goal)
  | [] => .ok []
  | g :: rest =>
    match goalOfName (pyUpper g) with
    | none => .error (.keyError (pyUpper g))
    | some gl => (goalsOfNames rest).map (gl :: ·)

/-- The mutable state of a `FitnessChatbot` instance: the intent classifier
and the two conversation-store dicts. -/
structure FitnessChatbot where
  intent_classifier : IntentClassifier
  user_profiles : List (String × UserProfile)
  conversation_history : List (String × List HistoryEntry)

/-- `FitnessChatbot.__init__`: empty stores, untrained classifier (the
sklearn pipeline it would use once trained is the `model` parameter). -/
def FitnessChatbot.init (model : String → Except PyError (String × ℚ)) :
    FitnessChatbot :=
  { intent_classifier := { trained := false, model := model }
    user_profiles := []
    conversation_history := [] }

/-- `FitnessChatbot.create_user_profile`: builds the `UserProfile` (with
`FitnessLevel[...upper()]` and `Goal[...upper()]` lookups and the derived
BMI fields) and stores it under `user_data['user_id']`. The source
validates nothing about age/weight/height/gender. -/
def FitnessChatbot.create_user_profile (c : FitnessChatbot)
    (user_data : RawUserData) : Except PyError (UserProfile × FitnessChatbot) := do
  let fl ← match fitnessLevelOfName
      (pyUpper (user_data.fitness_level.getD "BEGINNER")) with
    | none => .error (.keyError
        (pyUpper (user_data.fitness_level.getD "BEGINNER")))
    | some fl => .ok fl
  let gs ← goalsOfNames (user_data.goals.getD ["GENERAL_FITNESS"])
  let profile ← UserProfile.make user_data.user_id user_data.age
      user_data.weight user_data.height user_data.gender
      (user_data.activity_level.getD "moderate") fl gs
      (user_data.health_conditions.getD [])
      (user_data.dietary_restrictions.getD [])
  .ok (profile,
    { c with user_profiles := aset c.user_profiles user_data.user_id profile })

/-- The literal early-return response of `process_message` when the user
has no stored profile. -/
def profile_required_response : Response :=
  { response := "I need your basic information first. Please provide " ++
      "your age, weight, height, and gender."
    requires_profile := some true }

/-- `FitnessChatbot.process_message`: early return (no state change) when
the user has no profile; otherwise classify the message, build the
response via the dispatch table, lazily create the history list and append
one entry, and return the builder output unchanged. `now` models
`datetime.now().isoformat()` and `rand` the motivation builder's
`random.choice`. -/
def FitnessChatbot.process_message (c : FitnessChatbot) (now : String)
    (rand : ℕ) (user_id message : String) :
    Except PyError (Response × FitnessChatbot) := do
  match alookup c.user_profiles user_id with
  | none => .ok (profile_required_response, c)
  | some profile => do
    let (intent, _confidence) ← c.intent_classifier.predict message
    let response_data := generate_intent_response profile intent message rand
    let history := (alookup c.conversation_history user_id).getD []
    let entry : HistoryEntry :=
      { timestamp := now, message := message, intent := intent
        response := response_data.response }
    let new_hist := aset c.conversation_history user_id (history ++ [entry])
    .ok (response_data, { c with conversation_history := new_hist })

-- ===========================================================================
-- Shared lemmas
-- ===========================================================================

/-- The characterization of the `underweight` branch of `categorize_bmi`. -/
lemma cb_underweight_iff (x : ℚ) :
    categorize_bmi x = .underweight ↔ x < 37/2 := by
  unfold categorize_bmi
  split_ifs with h1 h2 h3 h4 h5 <;> simp_all

/-- The characterization of the `normal` branch of `categorize_bmi`. -/
lemma cb_normal_iff (x : ℚ) :
    categorize_bmi x = .normal ↔ 37/2 ≤ x ∧ x < 25 := by
  unfold categorize_bmi
  split_ifs with h1 h2 h3 h4 h5 <;> simp_all

/-- The characterization of the `overweight` branch of `categorize_bmi`. -/
lemma cb_overweight_iff (x : ℚ) :
    categorize_bmi x = .overweight ↔ 25 ≤ x ∧ x < 30 := by
  unfold categorize_bmi
  split_ifs with h1 h2 h3 h4 h5 <;> simp_all
  intros
  linarith

/-- The characterization of the `obese_1` branch of `categorize_bmi`. -/
lemma cb_obese1_iff (x : ℚ) :
    categorize_bmi x = .obese_1 ↔ 30 ≤ x ∧ x < 35 := by
  unfold categorize_bmi
  split_ifs with h1 h2 h3 h4 h5 <;> simp_all <;> intros <;> linarith

/-- The characterization of the `obese_2` branch of `categorize_bmi`. -/
lemma cb_obese2_iff (x : ℚ) :
    categorize_bmi x = .obese_2 ↔ 35 ≤ x ∧ x < 40 := by
  unfold categorize_bmi
  split_ifs with h1 h2 h3 h4 h5 <;> simp_all <;> intros <;> linarith

/-- The characterization of the `obese_3` branch of `categorize_bmi`. -/
lemma cb_obese3_iff (x : ℚ) :
    categorize_bmi x = .obese_3 ↔ 40 ≤ x := by
  unfold categorize_bmi
  split_ifs with h1 h2 h3 h4 h5 <;> simp_all <;> linarith

/-- Python `round` differs from its argument by at most one half. -/
lemma pyRound_abs_le (x : ℚ) : |((pyRound x : ℤ) : ℚ) - x| ≤ 1/2 := by
  have h0 : ((Int.floor x : ℤ) : ℚ) ≤ x := Int.floor_le x
  have h1 : x < ((Int.floor x : ℤ) : ℚ) + 1 := Int.lt_floor_add_one x
  unfold pyRound
  split_ifs with hlt hgt hev <;> push_cast <;> rw [abs_le] <;>
    constructor <;> linarith

-- ===========================================================================
-- Claim theorems
-- ===========================================================================

/-- C2: BMI categorization is a total, non-overlapping step function of the
BMI: for every BMI value exactly one of the six half-open bands holds and
`categorize_bmi` returns exactly that band (the six equivalences), and each
boundary value 18.5, 25, 30, 35, 40 falls in the upper interval's category. -/
theorem claim_C2_bmi_category_step_function (bmi : ℚ) :
    ((categorize_bmi bmi = .underweight ↔ bmi < 37/2) ∧
     (categorize_bmi bmi = .normal ↔ 37/2 ≤ bmi ∧ bmi < 25) ∧
     (categorize_bmi bmi = .overweight ↔ 25 ≤ bmi ∧ bmi < 30) ∧
     (categorize_bmi bmi = .obese_1 ↔ 30 ≤ bmi ∧ bmi < 35) ∧
     (categorize_bmi bmi = .obese_2 ↔ 35 ≤ bmi ∧ bmi < 40) ∧
     (categorize_bmi bmi = .obese_3 ↔ 40 ≤ bmi)) ∧
    (categorize_bmi (37/2) = .normal ∧ categorize_bmi 25 = .overweight ∧
     categorize_bmi 30 = .obese_1 ∧ categorize_bmi 35 = .obese_2 ∧
     categorize_bmi 40 = .obese_3) :=
  ⟨⟨cb_underweight_iff bmi, cb_normal_iff bmi, cb_overweight_iff bmi,
    cb_obese1_iff bmi, cb_obese2_iff bmi, cb_obese3_iff bmi⟩,
   by decide, by decide, by decide, by decide, by decide⟩

/-- A concrete profile whose goals contain `weight_loss` (used for concrete
runs of the weight-loss branches). -/
def wl_profile : UserProfile :=
  { user_id := "u1"
    age := 30
    weight := 85
    height := 175
    gender := "male"
    activity_level := "moderate"
    bmi := calculate_bmi 85 175
    bmi_category := categorize_bmi (calculate_bmi 85 175)
    fitness_level := .intermediate
    goals := [.weight_loss, .muscle_gain]
    health_conditions := []
    dietary_restrictions := [] }

/-- C6 (amended): for every profile and tdee, the macro split satisfies the
calorie identity within rounding tolerance ±9 (four independent half-unit
roundings scaled by 1, 4, 4 and 9); the claimed ±3 is refuted by
`claim_C6_counterexample`. -/
theorem claim_C6_macros_calorie_identity (profile : UserProfile) (tdee : ℚ) :
    |(calculate_macros profile tdee).calories -
      (4 * (calculate_macros profile tdee).protein +
       4 * (calculate_macros profile tdee).carbs +
       9 * (calculate_macros profile tdee).fats)| ≤ 9 := by
  unfold calculate_macros round0
  split_ifs with h1 h2 <;> simp only [] <;> rw [abs_le] <;> constructor
  · have hA := pyRound_abs_le (tdee - 500)
    have hB := pyRound_abs_le ((tdee - 500) * (7/20) / 4)
    have hC := pyRound_abs_le ((tdee - 500) * (2/5) / 4)
    have hD := pyRound_abs_le ((tdee - 500) * (1/4) / 9)
    rw [abs_le] at hA hB hC hD
    linarith
  · have hA := pyRound_abs_le (tdee - 500)
    have hB := pyRound_abs_le ((tdee - 500) * (7/20) / 4)
    have hC := pyRound_abs_le ((tdee - 500) * (2/5) / 4)
    have hD := pyRound_abs_le ((tdee - 500) * (1/4) / 9)
    rw [abs_le] at hA hB hC hD
    linarith
  · have hA := pyRound_abs_le (tdee + 300)
    have hB := pyRound_abs_le ((tdee + 300) * (3/10) / 4)
    have hC := pyRound_abs_le ((tdee + 300) * (9/20) / 4)
    have hD := pyRound_abs_le ((tdee + 300) * (1/4) / 9)
    rw [abs_le] at hA hB hC hD
    linarith
  · have hA := pyRound_abs_le (tdee + 300)
    have hB := pyRound_abs_le ((tdee + 300) * (3/10) / 4)
    have hC := pyRound_abs_le ((tdee + 300) * (9/20) / 4)
    have hD := pyRound_abs_le ((tdee + 300) * (1/4) / 9)
    rw [abs_le] at hA hB hC hD
    linarith
  · have hA := pyRound_abs_le tdee
    have hB := pyRound_abs_le (tdee * (1/4) / 4)
    have hC := pyRound_abs_le (tdee * (9/20) / 4)
    have hD := pyRound_abs_le (tdee * (3/10) / 9)
    rw [abs_le] at hA hB hC hD
    linarith
  · have hA := pyRound_abs_le tdee
    have hB := pyRound_abs_le (tdee * (1/4) / 4)
    have hC := pyRound_abs_le (tdee * (9/20) / 4)
    have hD := pyRound_abs_le (tdee * (3/10) / 9)
    rw [abs_le] at hA hB hC hD
    linarith

/-- C6 counterexample: for the weight-loss goal and tdee = 734 the macro
split is {234 kcal, 20 g protein, 23 g carbs, 6 g fat}, whose calorie
identity is off by 8 > 3, refuting the claimed ±3 tolerance. -/
theorem claim_C6_counterexample :
    ((calculate_macros wl_profile 734).calories -
      (4 * (calculate_macros wl_profile 734).protein +
       4 * (calculate_macros wl_profile 734).carbs +
       9 * (calculate_macros wl_profile 734).fats) = 8) ∧
    ¬ (|(calculate_macros wl_profile 734).calories -
        (4 * (calculate_macros wl_profile 734).protein +
         4 * (calculate_macros wl_profile 734).carbs +
         9 * (calculate_macros wl_profile 734).fats)| ≤ 3) := by
  have h : (calculate_macros wl_profile 734).calories -
      (4 * (calculate_macros wl_profile 734).protein +
       4 * (calculate_macros wl_profile 734).carbs +
       9 * (calculate_macros wl_profile 734).fats) = 8 := by decide
  exact ⟨h, by rw [h]; norm_num⟩

/-- A generic first-match characterization of `List.find?`. -/
lemma find?_eq_of_first {α : Type} (l : List α) (p : α → Bool) (i : ℕ)
    (hi : i < l.length) (hp : p (l.get ⟨i, hi⟩) = true)
    (hmin : ∀ j (hj : j < l.length), j < i → p (l.get ⟨j, hj⟩) = false) :
    l.find? p = some (l.get ⟨i, hi⟩) := by
  induction l generalizing i with
  | nil => simp at hi
  | cons a as ih =>
    cases i with
    | zero => exact List.find?_cons_of_pos _ (by simpa using hp)
    | succ n =>
      have ha : p a = false := hmin 0 (by omega) (by omega)
      have hi' : n < as.length := by simpa using hi
      have hrec := ih n hi' (by simpa using hp)
        (fun j hj hjn => by simpa using hmin (j+1) (by omega) (by omega))
      rw [List.find?_cons_of_neg _ (by simp [ha])]
      simpa using hrec

/-- C3: an untrained classifier's `predict` equals the rule-based fallback
for every text and every trained-strategy function; the fallback lower-cases
the text and returns the first `patterns` intent any of whose keywords is a
substring, with confidence 0.8, and `('general', 0.5)` when no entry matches
(in particular on the empty text); it never fails. -/
theorem claim_C3_untrained_predict_keyword_fallback
    (m : String → Except PyError (String × ℚ)) (text : String) :
    (IntentClassifier.predict ⟨false, m⟩ text =
      .ok (rule_based_classify text)) ∧
    (∀ i (hi : i < patterns.length),
       entryMatches (patterns.get ⟨i, hi⟩) (pyLower text) = true →
       (∀ j (hj : j < patterns.length), j < i →
          entryMatches (patterns.get ⟨j, hj⟩) (pyLower text) = false) →
       rule_based_classify text = ((patterns.get ⟨i, hi⟩).1, 4/5)) ∧
    ((∀ j (hj : j < patterns.length),
        entryMatches (patterns.get ⟨j, hj⟩) (pyLower text) = false) →
       rule_based_classify text = ("general", 1/2)) ∧
    (rule_based_classify "" = ("general", 1/2)) := by
  refine ⟨rfl, ?_, ?_, by decide⟩
  · intro i hi hp hmin
    simp only [rule_based_classify]
    rw [find?_eq_of_first patterns _ i hi hp hmin]
  · intro hall
    have hnone : patterns.find? (fun e => entryMatches e (pyLower text)) =
        none := by
      rw [List.find?_eq_none]
      intro a ha
      obtain ⟨⟨j, hj⟩, rfl⟩ := List.mem_iff_get.mp ha
      simp only [hall j hj]
      exact Bool.false_ne_true
    simp only [rule_based_classify]
    rw [hnone]

/-- C3 witness: a text containing keywords of both `diet_plan` (entry 2) and
`workout_plan` (entry 3) resolves to the earlier entry `diet_plan` with
confidence 0.8, and a text matching nothing resolves to `general`/0.5. -/
theorem claim_C3_witness :
    rule_based_classify "I need a diet and a workout" = ("diet_plan", 4/5) ∧
    rule_based_classify "zzz" = ("general", 1/2) := by
  refine ⟨?_, ?_⟩
  · exact (claim_C3_untrained_predict_keyword_fallback
      (fun _ => .ok ("", 0)) "I need a diet and a workout").2.1
      2 (by decide) (by decide) (by decide)
  · exact (claim_C3_untrained_predict_keyword_fallback
      (fun _ => .ok ("", 0)) "zzz").2.2.1 (by decide)

/-- C5: `calculate_macros` selects calories and ratios by goal with
first-match precedence (weight_loss before muscle_gain, regardless of the
other goals present), grams at 4 cal/g for protein and carbs and 9 cal/g for
fat, each rounded to the nearest integer; being a total function, the call
never fails. -/
theorem claim_C5_macros_goal_precedence (profile : UserProfile) (tdee : ℚ) :
    (Goal.weight_loss ∈ profile.goals →
      calculate_macros profile tdee =
        { calories := round0 (tdee - 500)
          protein := round0 ((tdee - 500) * (7/20) / 4)
          carbs := round0 ((tdee - 500) * (2/5) / 4)
          fats := round0 ((tdee - 500) * (1/4) / 9) }) ∧
    (Goal.weight_loss ∉ profile.goals → Goal.muscle_gain ∈ profile.goals →
      calculate_macros profile tdee =
        { calories := round0 (tdee + 300)
          protein := round0 ((tdee + 300) * (3/10) / 4)
          carbs := round0 ((tdee + 300) * (9/20) / 4)
          fats := round0 ((tdee + 300) * (1/4) / 9) }) ∧
    (Goal.weight_loss ∉ profile.goals → Goal.muscle_gain ∉ profile.goals →
      calculate_macros profile tdee =
        { calories := round0 tdee
          protein := round0 (tdee * (1/4) / 4)
          carbs := round0 (tdee * (9/20) / 4)
          fats := round0 (tdee * (3/10) / 9) }) := by
  refine ⟨fun h1 => ?_, fun h1 h2 => ?_, fun h1 h2 => ?_⟩ <;>
    unfold calculate_macros <;> simp [h1]
  · simp [h2]
  · simp [h2]

/-- C5 witness: a profile with both `weight_loss` and `muscle_gain` takes the
weight-loss branch (precedence), giving at tdee = 2788 the split
{2288, 200 g, 229 g, 64 g}. -/
theorem claim_C5_witness :
    Goal.weight_loss ∈ wl_profile.goals ∧
    calculate_macros wl_profile 2788 =
      { calories := 2288, protein := 200, carbs := 229, fats := 64 } := by
  have hm : Goal.weight_loss ∈ wl_profile.goals := by decide
  refine ⟨hm, ?_⟩
  rw [(claim_C5_macros_goal_precedence wl_profile 2788).1 hm]
  decide

/-- The workout frequency implied by a fitness level (from the selection in
`generate_weekly_plan`: beginner 3, intermediate 4, advanced/elite 5). -/
def frequencyOf : FitnessLevel → ℕ
  | .beginner => 3
  | .intermediate => 4
  | _ => 5

/-- The session duration (minutes) implied by a fitness level (30/45/60). -/
def durationOf : FitnessLevel → ℕ
  | .beginner => 30
  | .intermediate => 45
  | _ => 60

/-- The ordered archetype-name list of the template selected by the
goal-priority chain of `generate_weekly_plan`. -/
def selectedArchetypes (profile : UserProfile) : List String :=
  if Goal.weight_loss ∈ profile.goals then weight_loss_workout_types.map (·.1)
  else if Goal.muscle_gain ∈ profile.goals then muscle_gain_split.map (·.1)
  else if Goal.endurance ∈ profile.goals then endurance_workouts.map (·.1)
  else general_fitness_workouts.map (·.1)

/-- The archetype name a generated day carries (its `type` key, or for the
muscle-gain template its `name` key). -/
def DaySpec.archetype (d : DaySpec) : String :=
  match d.type with
  | some t => t
  | none => d.name.getD ""

/-- Dummy day used as the (never-reached) `getD` default. -/
def blankDay : String × DaySpec := ("", { duration := "" })

/-- C7: `generate_weekly_plan` is deterministic; the number of days equals
the frequency implied by fitness level (3/4/5) with duration 30/45/60
minutes; day i is labeled `Day i+1` and carries archetype
`archetype[i mod len(archetypes)]` of the goal-selected template. -/
theorem claim_C7_weekly_plan_deterministic_cycling (profile : UserProfile) :
    (∀ q : UserProfile, q = profile →
      generate_weekly_plan q = generate_weekly_plan profile) ∧
    (generate_weekly_plan profile).days.length =
      frequencyOf profile.fitness_level ∧
    (∀ i, i < (generate_weekly_plan profile).days.length →
      ((generate_weekly_plan profile).days.getD i blankDay).1 =
        "Day " ++ toString (i + 1) ∧
      ((generate_weekly_plan profile).days.getD i blankDay).2.duration =
        toString (durationOf profile.fitness_level) ++ " minutes" ∧
      ((generate_weekly_plan profile).days.getD i blankDay).2.archetype =
        (selectedArchetypes profile).getD
          (i % (selectedArchetypes profile).length) "") := by
  refine ⟨fun q hq => by rw [hq], ?_, ?_⟩ <;>
  · rcases hfl : profile.fitness_level with _ | _ | _ | _ <;>
    by_cases hwl : Goal.weight_loss ∈ profile.goals <;>
    by_cases hmg : Goal.muscle_gain ∈ profile.goals <;>
    by_cases hend : Goal.endurance ∈ profile.goals <;>
    simp [generate_weekly_plan, selectedArchetypes, frequencyOf,
      durationOf, hfl, hwl, hmg, hend,
      generate_weight_loss_plan, generate_muscle_gain_plan,
      generate_endurance_plan, generate_general_fitness_plan] <;>
    decide

/-- C7 witness: for the concrete intermediate weight-loss profile the plan
has 4 days, day index 2 is labeled `Day 3`, lasts 45 minutes, and carries
the third weight-loss archetype `Steady Cardio`. -/
theorem claim_C7_witness :
    (generate_weekly_plan wl_profile).days.length = 4 ∧
    ((generate_weekly_plan wl_profile).days.getD 2 blankDay).1 = "Day 3" ∧
    ((generate_weekly_plan wl_profile).days.getD 2 blankDay).2.duration =
      "45 minutes" ∧
    ((generate_weekly_plan wl_profile).days.getD 2 blankDay).2.archetype =
      "Steady Cardio" := by
  have h := claim_C7_weekly_plan_deterministic_cycling wl_profile
  have h2 := h.2.2 2 (by decide)
  exact ⟨h.2.1, h2.1, h2.2.1, h2.2.2⟩

/-- C8 (amended): `predict` contains no exception handling around the
trained strategy: when the `trained` flag is set it returns exactly the
trained strategy's outcome -- errors included -- and the deterministic
fallback is used only when the flag is unset. -/
theorem claim_C8_trained_errors_propagate
    (m : String → Except PyError (String × ℚ)) (text : String) :
    IntentClassifier.predict ⟨true, m⟩ text = m text ∧
    IntentClassifier.predict ⟨false, m⟩ text =
      .ok (rule_based_classify text) :=
  ⟨rfl, rfl⟩

/-- C8 counterexample: a trained strategy that fails makes `predict` return
that very failure rather than the fallback's answer, refuting the claimed
catch-and-downgrade behaviour. -/
theorem claim_C8_counterexample :
    IntentClassifier.predict
      ⟨true, fun _ => .error (.generic "vectorizer failure")⟩ "hi" =
      .error (.generic "vectorizer failure") ∧
    IntentClassifier.predict
      ⟨true, fun _ => .error (.generic "vectorizer failure")⟩ "hi" ≠
      .ok (rule_based_classify "hi") :=
  ⟨rfl, fun h => Except.noConfusion h⟩

/-- Any rational within half a hundredth below 25 rounds (to 2 decimals) up
to exactly 25 under Python rounding. -/
lemma round2_upper_boundary (x : ℚ) (h1 : 24995/1000 ≤ x) (h2 : x < 25) :
    round2 x = 25 := by
  have hfl : Int.floor (x * 100) = 2499 := by
    rw [Int.floor_eq_iff]
    constructor <;> push_cast <;> linarith
  unfold round2 pyRound
  rw [hfl]
  split_ifs with ha hb hc
  · exfalso
    push_cast at ha
    linarith
  · norm_num
  · exact absurd hc (by decide)
  · norm_num

/-- C10: the stored BMI category of a constructed profile is the step
function applied to the 2-decimal-rounded BMI (not the raw quotient), so a
raw BMI in [24.995, 25) is categorized as `overweight` rather than
`normal`. -/
theorem claim_C10_category_of_rounded_bmi (user_id : String) (age : ℤ)
    (weight height : ℚ) (gender activity : String) (fl : FitnessLevel)
    (gs : List Goal) (hc dr : List String) (p : UserProfile)
    (hmk : UserProfile.make user_id age weight height gender activity
      fl gs hc dr = .ok p) :
    p.bmi_category = categorize_bmi (round2 (weight / (height/100)^2)) ∧
    (24995/1000 ≤ weight / (height/100)^2 → weight / (height/100)^2 < 25 →
      p.bmi_category = .overweight) := by
  unfold UserProfile.make at hmk
  by_cases hh : height = 0
  · rw [if_pos hh] at hmk
    exact absurd hmk (by simp)
  · rw [if_neg hh] at hmk
    have hp := (Except.ok.inj hmk).symm
    subst hp
    constructor
    · rfl
    · intro hb1 hb2
      show categorize_bmi (calculate_bmi weight height) = .overweight
      have h25 : calculate_bmi weight height = 25 := by
        show round2 (weight / (height/100)^2) = 25
        exact round2_upper_boundary _ hb1 hb2
      rw [h25]
      decide

/-- The profile constructed from weight 99.99 kg and height 200 cm; its raw
BMI 24.9975 lies in [24.995, 25). -/
def boundary_profile : UserProfile :=
  { user_id := "u9"
    age := 30
    weight := 9999/100
    height := 200
    gender := "male"
    activity_level := "moderate"
    bmi := calculate_bmi (9999/100) 200
    bmi_category := categorize_bmi (calculate_bmi (9999/100) 200)
    fitness_level := .beginner
    goals := []
    health_conditions := []
    dietary_restrictions := [] }

/-- C10 witness: weight 99.99 kg at height 200 cm has raw BMI 24.9975 --
below 25, so the raw step function would say `normal` -- yet the stored
category is `overweight`, via the rounding to 25.00. -/
theorem claim_C10_witness :
    UserProfile.make "u9" 30 (9999/100) 200 "male" "moderate" .beginner []
      [] [] = .ok boundary_profile ∧
    24995/1000 ≤ (9999/100 : ℚ) / ((200/100)^2) ∧
    (9999/100 : ℚ) / ((200/100)^2) < 25 ∧
    boundary_profile.bmi_category = .overweight := by
  have hmk : UserProfile.make "u9" 30 (9999/100) 200 "male" "moderate"
      .beginner [] [] [] = .ok boundary_profile := by
    unfold UserProfile.make boundary_profile
    rw [if_neg (by decide)]
  refine ⟨hmk, by decide, by decide, ?_⟩
  exact (claim_C10_category_of_rounded_bmi "u9" 30 (9999/100) 200 "male"
    "moderate" .beginner [] [] [] boundary_profile hmk).2
    (by decide) (by decide)

/-- The profile `create_user_profile` constructs from a raw dict once the
fitness-level and goal lookups have produced `fl` and `gs`. -/
def built_profile (ud : RawUserData) (fl : FitnessLevel) (gs : List Goal) :
    UserProfile :=
  { user_id := ud.user_id
    age := ud.age
    weight := ud.weight
    height := ud.height
    gender := ud.gender
    activity_level := ud.activity_level.getD "moderate"
    bmi := calculate_bmi ud.weight ud.height
    bmi_category := categorize_bmi (calculate_bmi ud.weight ud.height)
    fitness_level := fl
    goals := gs
    health_conditions := ud.health_conditions.getD []
    dietary_restrictions := ud.dietary_restrictions.getD [] }

/-- The chatbot state after `create_user_profile` stores a profile. -/
def stored_chatbot (c : FitnessChatbot) (ud : RawUserData)
    (p : UserProfile) : FitnessChatbot :=
  { c with user_profiles := aset c.user_profiles ud.user_id p }

/-- C1 (amended): profile creation performs no validation of age, weight,
height or gender -- whenever the fitness-level and goal strings map into
their vocabularies and the height is nonzero it succeeds, whatever the
biometric values -- and an unrecognized gender does not fail but silently
selects the non-male BMR formula branch at use time. -/
theorem claim_C1_no_biometric_validation (c : FitnessChatbot)
    (ud : RawUserData) (fl : FitnessLevel) (gs : List Goal)
    (h1 : fitnessLevelOfName (pyUpper (ud.fitness_level.getD "BEGINNER")) =
      some fl)
    (h2 : goalsOfNames (ud.goals.getD ["GENERAL_FITNESS"]) = .ok gs)
    (h3 : ud.height ≠ 0) :
    (FitnessChatbot.create_user_profile c ud =
      .ok (built_profile ud fl gs,
        stored_chatbot c ud (built_profile ud fl gs))) ∧
    (built_profile ud fl gs).age = ud.age ∧
    (built_profile ud fl gs).weight = ud.weight ∧
    (built_profile ud fl gs).gender = ud.gender ∧
    (∀ p : UserProfile, pyLower p.gender ≠ "male" →
       calculate_bmr p =
         round0 (10 * p.weight + 25/4 * p.height - 5 * p.age - 161)) := by
  refine ⟨?_, rfl, rfl, rfl, ?_⟩
  · unfold FitnessChatbot.create_user_profile UserProfile.make
    rw [h1, h2]
    simp only [bind, Except.bind, if_neg h3]
    rfl
  · intro p hg
    unfold calculate_bmr
    rw [if_neg hg]

/-- A freshly constructed chatbot (`FitnessChatbot.__init__`): empty stores,
untrained classifier. -/
def chatbot0 : FitnessChatbot :=
  FitnessChatbot.init (fun _ => .error (.generic "untrained model"))

/-- The sample user of the source's test harness. -/
def sample_raw : RawUserData :=
  { user_id := "test_user_1"
    age := 30
    weight := 85
    height := 175
    gender := "male"
    activity_level := some "moderate"
    fitness_level := some "intermediate"
    goals := some ["weight_loss", "muscle_gain"]
    health_conditions := some []
    dietary_restrictions := some [] }

/-- C1 witness: the source's own sample user is created successfully with
fitness level intermediate and goals [weight_loss, muscle_gain]. -/
theorem claim_C1_witness :
    chatbot0.create_user_profile sample_raw =
      .ok (built_profile sample_raw .intermediate
             [.weight_loss, .muscle_gain],
           stored_chatbot chatbot0 sample_raw
             (built_profile sample_raw .intermediate
               [.weight_loss, .muscle_gain])) ∧
    (built_profile sample_raw .intermediate
      [.weight_loss, .muscle_gain]).weight = 85 := by
  refine ⟨?_, rfl⟩
  exact (claim_C1_no_biometric_validation chatbot0 sample_raw .intermediate
    [.weight_loss, .muscle_gain] (by decide) rfl (by decide)).1

/-- A raw input the claim says must be rejected: non-positive age and
weight, unrecognized gender. -/
def bad_raw : RawUserData :=
  { user_id := "bad"
    age := -5
    weight := -80
    height := 175
    gender := "robot" }

/-- The profile the code actually builds from `bad_raw`. -/
def bad_profile : UserProfile := built_profile bad_raw .beginner
  [.general_fitness]

/-- C1 counterexample: creation with age -5, weight -80 and gender "robot"
succeeds (no ValidationError), and the unrecognized gender silently lands in
the non-male BMR branch (BMR 158 from the -161 formula). -/
theorem claim_C1_counterexample :
    chatbot0.create_user_profile bad_raw =
      .ok (bad_profile, stored_chatbot chatbot0 bad_raw bad_profile) ∧
    bad_profile.age = -5 ∧ bad_profile.weight = -80 ∧
    bad_profile.gender = "robot" ∧
    calculate_bmr bad_profile = 158 := by
  refine ⟨?_, rfl, rfl, rfl, by decide⟩
  unfold FitnessChatbot.create_user_profile UserProfile.make
  rw [show fitnessLevelOfName (pyUpper (bad_raw.fitness_level.getD
    "BEGINNER")) = some .beginner from rfl]
  rw [show goalsOfNames (bad_raw.goals.getD ["GENERAL_FITNESS"]) =
    .ok [.general_fitness] from rfl]
  simp only [bind, Except.bind, if_neg (show bad_raw.height ≠ 0 by decide)]
  rfl

/-- Looking up in an association list headed by `a`. -/
lemma alookup_cons {α : Type} (a : String × α) (t : List (String × α))
    (u : String) :
    alookup (a :: t) u = if a.1 == u then some a.2 else alookup t u := by
  by_cases h : a.1 == u <;> simp [alookup, List.find?_cons, h]

/-- The in-place-update branch of `aset`, looked up at the updated key. -/
lemma alookup_map_self {α : Type} (l : List (String × α)) (k : String)
    (v : α) (h : l.any (·.1 == k) = true) :
    alookup (l.map fun kv => if kv.1 == k then (k, v) else kv) k = some v := by
  induction l with
  | nil => simp at h
  | cons a t ih =>
    by_cases ha : a.1 = k
    · simp [alookup_cons, ha]
    · have ht : t.any (·.1 == k) = true := by
        simp only [List.any_cons, Bool.or_eq_true, beq_iff_eq] at h
        rcases h with h | h
        · exact absurd h ha
        · simpa using h
      have ih2 := ih ht
      simp only [beq_iff_eq] at ih2
      simp [alookup_cons, ha, ih2]

/-- The in-place-update branch of `aset`, looked up at another key. -/
lemma alookup_map_other {α : Type} (l : List (String × α)) (k u : String)
    (v : α) (hne : ¬ k = u) :
    alookup (l.map fun kv => if kv.1 == k then (k, v) else kv) u =
      alookup l u := by
  induction l with
  | nil => rfl
  | cons a t ih =>
    have ih2 := ih
    simp only [beq_iff_eq] at ih2
    by_cases ha : a.1 = k
    · have hau : ¬ a.1 = u := fun hc => hne (ha ▸ hc)
      simp [alookup_cons, ha, hau, hne, ih2]
    · simp [alookup_cons, ha, ih2]

/-- The append branch of `aset`, looked up at the appended key. -/
lemma alookup_append_self {α : Type} (l : List (String × α)) (k : String)
    (v : α) (h : ∀ kv ∈ l, ¬ kv.1 = k) :
    alookup (l ++ [(k, v)]) k = some v := by
  induction l with
  | nil => simp [alookup_cons]
  | cons a t ih =>
    have ha := h a (by simp)
    simp [alookup_cons, ha, ih (fun kv hkv => h kv (by simp [hkv]))]

/-- The append branch of `aset`, looked up at another key. -/
lemma alookup_append_other {α : Type} (l : List (String × α)) (k u : String)
    (v : α) (hne : ¬ k = u) :
    alookup (l ++ [(k, v)]) u = alookup l u := by
  induction l with
  | nil =>
    have hb : (k == u) = false := by simp [hne]
    simp [alookup, List.find?, hb]
  | cons a t ih => simp [alookup_cons, ih]

/-- Dict update then lookup at the same key yields the new value. -/
lemma alookup_aset_self {α : Type} (l : List (String × α)) (k : String)
    (v : α) : alookup (aset l k v) k = some v := by
  unfold aset
  by_cases h : l.any (·.1 == k)
  · rw [if_pos h]
    exact alookup_map_self l k v h
  · rw [if_neg h]
    refine alookup_append_self l k v ?_
    intro kv hkv hc
    exact h (by simp only [List.any_eq_true]; exact ⟨kv, hkv, by simp [hc]⟩)

/-- Dict update leaves every other key's lookup unchanged. -/
lemma alookup_aset_other {α : Type} (l : List (String × α)) (k u : String)
    (v : α) (hne : u ≠ k) : alookup (aset l k v) u = alookup l u := by
  have hku : ¬ k = u := fun hc => hne hc.symm
  unfold aset
  by_cases h : l.any (·.1 == k)
  · rw [if_pos h]
    exact alookup_map_other l k u v hku
  · rw [if_neg h]
    exact alookup_append_other l k u v hku

/-- C4: `process_message` on an identifier without a stored profile returns
the fixed profile-required response with `requires_profile = true` and the
state (hence every user's history) unchanged; with a stored profile and an
untrained classifier it succeeds and appends exactly one entry to that
user's history, leaving all other users' histories unchanged. -/
theorem claim_C4_process_message_history (c : FitnessChatbot) (now : String)
    (rand : ℕ) (user_id message : String) :
    (alookup c.user_profiles user_id = none →
      FitnessChatbot.process_message c now rand user_id message =
        .ok (profile_required_response, c) ∧
      profile_required_response.requires_profile = some true) ∧
    (∀ profile : UserProfile,
      alookup c.user_profiles user_id = some profile →
      c.intent_classifier.trained = false →
      ∃ resp c',
        FitnessChatbot.process_message c now rand user_id message =
          .ok (resp, c') ∧
        alookup c'.conversation_history user_id =
          some ((alookup c.conversation_history user_id).getD [] ++
            [{ timestamp := now, message := message,
               intent := (rule_based_classify message).1,
               response := resp.response }]) ∧
        (∀ u, u ≠ user_id →
          alookup c'.conversation_history u =
            alookup c.conversation_history u)) := by
  constructor
  · intro hnone
    refine ⟨?_, rfl⟩
    unfold FitnessChatbot.process_message
    rw [hnone]
  · intro profile hsome htr
    have hpred : c.intent_classifier.predict message =
        .ok (rule_based_classify message) := by
      unfold IntentClassifier.predict
      rw [htr]
      rfl
    unfold FitnessChatbot.process_message
    rw [hsome, hpred]
    refine ⟨_, _, rfl, ?_, ?_⟩
    · exact alookup_aset_self _ _ _
    · intro u hu
      exact alookup_aset_other _ _ _ _ hu

/-- The chatbot state after the sample profile has been created. -/
def chatbot1 : FitnessChatbot := stored_chatbot chatbot0 sample_raw
  (built_profile sample_raw .intermediate [.weight_loss, .muscle_gain])

/-- C4 witness: on a fresh chatbot, `"hi"` for `test_user_1` yields the
profile-required response and no state change; after the profile is created
the same text appends exactly one `greeting` history entry for that user. -/
theorem claim_C4_witness :
    (FitnessChatbot.process_message chatbot0 "t0" 0 "test_user_1" "hi" =
      .ok (profile_required_response, chatbot0)) ∧
    profile_required_response.requires_profile = some true ∧
    (∃ resp c',
      FitnessChatbot.process_message chatbot1 "t1" 0 "test_user_1" "hi" =
        .ok (resp, c') ∧
      alookup c'.conversation_history "test_user_1" =
        some [{ timestamp := "t1", message := "hi", intent := "greeting",
                response := resp.response }] ∧
      (∀ u, u ≠ "test_user_1" →
        alookup c'.conversation_history u =
          alookup chatbot1.conversation_history u)) := by
  have hpart1 := (claim_C4_process_message_history chatbot0 "t0" 0
    "test_user_1" "hi").1 rfl
  have hpart2 := (claim_C4_process_message_history chatbot1 "t1" 0
    "test_user_1" "hi").2
    (built_profile sample_raw .intermediate [.weight_loss, .muscle_gain])
    rfl rfl
  exact ⟨hpart1.1, hpart1.2, hpart2⟩

/-- No response builder sets a `timestamp` key: the dispatch output always
has it absent. -/
lemma generate_intent_response_timestamp (p : UserProfile)
    (intent m : String) (r : ℕ) :
    (generate_intent_response p intent m r).timestamp = none := by
  simp only [generate_intent_response]
  by_cases h1 : intent = "greeting"
  · rw [if_pos h1]
    rfl
  rw [if_neg h1]
  by_cases h2 : intent = "bmi_query"
  · rw [if_pos h2]
    rfl
  rw [if_neg h2]
  by_cases h3 : intent = "diet_plan"
  · rw [if_pos h3]
    rfl
  rw [if_neg h3]
  by_cases h4 : intent = "workout_plan"
  · rw [if_pos h4]
    rfl
  rw [if_neg h4]
  by_cases h5 : intent = "health_risk"
  · rw [if_pos h5]
    rfl
  rw [if_neg h5]
  by_cases h6 : intent = "progress_tracking"
  · rw [if_pos h6]
    rfl
  rw [if_neg h6]
  by_cases h7 : intent = "motivation"
  · rw [if_pos h7]
    rfl
  rw [if_neg h7]
  by_cases h8 : intent = "nutrition_info"
  · rw [if_pos h8]
    rfl
  rw [if_neg h8]
  by_cases h9 : intent = "goal_setting"
  · rw [if_pos h9]
    rfl
  rw [if_neg h9]
  by_cases h10 : intent = "supplement_info"
  · rw [if_pos h10]
    rfl
  rw [if_neg h10]
  by_cases h11 : intent = "injury_prevention"
  · rw [if_pos h11]
    rfl
  rw [if_neg h11]
  by_cases h12 : intent = "recovery"
  · rw [if_pos h12]
    rfl
  rw [if_neg h12]
  by_cases h13 : intent = "sleep_advice"
  · rw [if_pos h13]
    rfl
  rw [if_neg h13]
  by_cases h14 : intent = "hydration"
  · rw [if_pos h14]
    rfl
  rw [if_neg h14]
  rfl

/-- C9 (amended): for a user with a stored profile (and the untrained
classifier) `process_message` returns exactly the dispatched
response-builder's output, with no timestamp augmentation: no builder output
carries a timestamp key (the timestamp goes only into the history entry). -/
theorem claim_C9_response_is_builder_output (c : FitnessChatbot)
    (now : String) (rand : ℕ) (user_id message : String)
    (profile : UserProfile)
    (hsome : alookup c.user_profiles user_id = some profile)
    (htr : c.intent_classifier.trained = false) :
    (∃ c', FitnessChatbot.process_message c now rand user_id message =
      .ok (generate_intent_response profile (rule_based_classify message).1
            message rand, c')) ∧
    (∀ p : UserProfile, ∀ intent m : String, ∀ r : ℕ,
      (generate_intent_response p intent m r).timestamp = none) := by
  constructor
  · have hpred : c.intent_classifier.predict message =
        .ok (rule_based_classify message) := by
      unfold IntentClassifier.predict
      rw [htr]
      rfl
    unfold FitnessChatbot.process_message
    rw [hsome, hpred]
    exact ⟨_, rfl⟩
  · intro p intent m r
    exact generate_intent_response_timestamp p intent m r

/-- C9 witness: a diet-plan message for the stored sample user returns
exactly the diet-plan builder's output. -/
theorem claim_C9_witness :
    (rule_based_classify "i need a diet plan").1 = "diet_plan" ∧
    (∃ c', FitnessChatbot.process_message chatbot1 "t1" 7 "test_user_1"
      "i need a diet plan" =
      .ok (generate_intent_response
        (built_profile sample_raw .intermediate [.weight_loss, .muscle_gain])
        (rule_based_classify "i need a diet plan").1 "i need a diet plan" 7,
        c')) := by
  refine ⟨by decide, ?_⟩
  exact (claim_C9_response_is_builder_output chatbot1 "t1" 7 "test_user_1"
    "i need a diet plan"
    (built_profile sample_raw .intermediate [.weight_loss, .muscle_gain])
    rfl rfl).1

set_option maxHeartbeats 2000000 in
/-- C9 counterexample: the value returned for `"hi"` carries no timestamp
key at all (`none`), so it is not the builder's output augmented with a
timestamp field. -/
theorem claim_C9_counterexample :
    (FitnessChatbot.process_message chatbot1 "2025-01-01T00:00:00" 0
      "test_user_1" "hi").map (fun rc => rc.1.timestamp) = .ok none ∧
    ¬ ∃ ts : String, (FitnessChatbot.process_message chatbot1
      "2025-01-01T00:00:00" 0 "test_user_1" "hi").map
        (fun rc => rc.1.timestamp) = .ok (some ts) := by
  have h1 : (FitnessChatbot.process_message chatbot1 "2025-01-01T00:00:00" 0
      "test_user_1" "hi").map (fun rc => rc.1.timestamp) = .ok none := rfl
  refine ⟨h1, ?_⟩
  rintro ⟨ts, hts⟩
  rw [h1] at hts
  exact Option.noConfusion (Except.ok.inj hts)
